/-
Verification of the Trend Analysis & Threshold Alerting Engine of the
industrial health dashboard.

The engine's numeric values are modelled as exact rationals (ℚ).  A value
whose `parseFloat` is `NaN` is modelled as `none : Option ℚ`; the non-finite
results of JavaScript arithmetic (`Infinity`, `-Infinity`, `NaN`) that can
arise in the rate-of-change division are modelled explicitly by the `JSNum`
type.  `Number.prototype.toFixed` is modelled exactly (round to nearest,
ties away from zero after sign extraction, as the ECMAScript algorithm
prescribes: the sign is split off first and the nonnegative remainder is
rounded with ties picking the larger candidate).
-/
import Mathlib

section DashboardDevelopment

/- Batteries marks the `Rat` field operations `@[irreducible]`; we restore the
default reducibility locally so that concrete instances of the engine can be
evaluated by `decide` (the kernel ignores the attribute either way). -/
attribute [local semireducible] Rat.mul Rat.add Rat.inv Rat.sub Rat.ofScientific

namespace Dashboard

/-- `String.mk (List.replicate k '0')`: the zero padding used by `toFixed`. -/
def padZeros (k : ℕ) : String := String.mk (List.replicate k '0')

/-- `Number.prototype.toFixed d` for a nonnegative rational: round
`q·10^d` to the nearest integer (ties upward) and insert the decimal point. -/
def toFixedNonneg (d : ℕ) (q : ℚ) : String :=
  let scaled : ℕ := (Rat.floor (q * (10 : ℚ) ^ d + 1 / 2)).toNat
  if d = 0 then toString scaled
  else
    let ip := scaled / 10 ^ d
    let fp := scaled % 10 ^ d
    let fpStr := toString fp
    toString ip ++ "." ++ padZeros (d - fpStr.length) ++ fpStr

/-- `Number.prototype.toFixed d` on a finite value: the ECMAScript algorithm
splits off the sign and renders the absolute value. -/
def toFixed (d : ℕ) (q : ℚ) : String :=
  if q < 0 then "-" ++ toFixedNonneg d (-q) else toFixedNonneg d q

/-- A JavaScript number as far as the engine's arithmetic can observe it:
a finite rational, one of the two infinities, or `NaN`.  (The sign of zero
is not modelled; the engine never distinguishes `+0` from `-0`.) -/
inductive JSNum where
  | num (q : ℚ)
  | posInf
  | negInf
  | nan
deriving Repr, DecidableEq

/-- JavaScript division of two finite numbers: a nonzero value divided by
zero gives a signed infinity, `0 / 0` gives `NaN`. -/
def jsDivQ (a b : ℚ) : JSNum :=
  if b = 0 then
    if a = 0 then JSNum.nan else if 0 < a then JSNum.posInf else JSNum.negInf
  else JSNum.num (a / b)

/-- JavaScript multiplication by a positive finite constant (the engine only
multiplies by `100` and `24`): infinities and `NaN` are preserved. -/
def jsMulPos (x : JSNum) (c : ℚ) : JSNum :=
  match x with
  | JSNum.num q => JSNum.num (q * c)
  | JSNum.posInf => JSNum.posInf
  | JSNum.negInf => JSNum.negInf
  | JSNum.nan => JSNum.nan

/-- JavaScript `Math.abs`. -/
def jsAbs (x : JSNum) : JSNum :=
  match x with
  | JSNum.num q => JSNum.num |q|
  | JSNum.posInf => JSNum.posInf
  | JSNum.negInf => JSNum.posInf
  | JSNum.nan => JSNum.nan

/-- JavaScript `x > c` for a finite constant `c`: comparisons with `NaN`
are false. -/
def jsGtQ (x : JSNum) (c : ℚ) : Bool :=
  match x with
  | JSNum.num q => decide (c < q)
  | JSNum.posInf => true
  | JSNum.negInf => false
  | JSNum.nan => false

/-- JavaScript `a / x` for a positive finite numerator `a` (the engine uses
`100 / rateOfChange`): a finite value divided by an infinity is `0`. -/
def jsDivByn (a : ℚ) (x : JSNum) : JSNum :=
  match x with
  | JSNum.num q => jsDivQ a q
  | JSNum.posInf => JSNum.num 0
  | JSNum.negInf => JSNum.num 0
  | JSNum.nan => JSNum.nan

/-- `Number.prototype.toFixed` on a possibly non-finite value: per the
ECMAScript spec, a non-finite receiver is rendered by `ToString`. -/
def jsToFixed (d : ℕ) (x : JSNum) : String :=
  match x with
  | JSNum.num q => toFixed d q
  | JSNum.posInf => "Infinity"
  | JSNum.negInf => "-Infinity"
  | JSNum.nan => "NaN"

/-!
## The alert engine (`checkForCriticalAlerts`, `dismissAlert`, `getMetricAlert`)

Source: the alert-lifecycle functions of the dashboard component.  An alert is
the object pushed by `checkForCriticalAlerts`; the engine state is the pair of
the React state atoms `alerts` / `showAlertModal`.  The fresh identifier
(`'oil-' + Date.now() + Math.random()`) and `new Date().toLocaleTimeString()`
are ambient effects; they enter the model as opaque string parameters.
`latestValues.oilLevel` / `latestValues.angle` enter after `parseFloat`:
`none` models a value whose parse is `NaN` (or an `undefined` field).
-/

/-- One queued alert, with the exact fields the source pushes. -/
structure Alert where
  id : String
  metric : String
  severity : String
  message : String
  currentValue : String
  threshold : String
  description : String
  timestamp : String
deriving Repr, DecidableEq

/-- The alert-engine state: the `alerts` list and the `showAlertModal` flag. -/
structure AlertState where
  alerts : List Alert
  modalVisible : Bool
deriving Repr, DecidableEq

/-- The oil-level rule of `checkForCriticalAlerts`: push one alert when the
parsed value is a number different from `20`. -/
def oilAlerts (oilLevel : Option ℚ) (oilId ts : String) : List Alert :=
  match oilLevel with
  | none => []
  | some v =>
    if v ≠ 20 then
      [{ id := oilId
         metric := "Oil Level"
         severity := "critical"
         message := "🛢️ Oil Level " ++ (if v < 20 then "LOW" else "HIGH") ++ " ALERT"
         currentValue := toFixed 1 v ++ "%"
         threshold := "20%"
         description := "Oil level is " ++ toFixed 1 v ++ "% (" ++
           (if v < 20 then "below" else "above") ++ " threshold 20%)"
         timestamp := ts }]
    else []

/-- The angle rule of `checkForCriticalAlerts`: push one alert when the parsed
value is a number outside the band `[-3.5, 3.5]`. -/
def angleAlerts (angle : Option ℚ) (angleId ts : String) : List Alert :=
  match angle with
  | none => []
  | some v =>
    if v < -3.5 ∨ v > 3.5 then
      [{ id := angleId
         metric := "Angle"
         severity := "critical"
         message := "📐 Angle " ++ (if v < -3.5 then "LOW" else "HIGH") ++ " ALERT"
         currentValue := toFixed 2 v ++ "°"
         threshold := "Normal range: -3.5° to 3.5°"
         description := "Angle is " ++ toFixed 2 v ++ "° (" ++
           (if v < -3.5 then "below -3.5°" else "above 3.5°") ++ " threshold)"
         timestamp := ts }]
    else []

/-- `checkForCriticalAlerts`: build `currentAlerts` from the two rules over the
latest parsed values; a non-empty result replaces the alert list and forces the
modal open, an empty result clears the list and leaves the modal flag alone. -/
def checkForCriticalAlerts (oilLevel angle : Option ℚ) (oilId angleId ts : String)
    (st : AlertState) : AlertState :=
  let currentAlerts := oilAlerts oilLevel oilId ts ++ angleAlerts angle angleId ts
  if 0 < currentAlerts.length then
    { alerts := currentAlerts, modalVisible := true }
  else
    { alerts := [], modalVisible := st.modalVisible }

/-- `dismissAlert`: filter out the alerts with the given id; the modal-close
check reads the length of the list from *before* the update (the source closure
captures the stale `alerts` value). -/
def dismissAlert (alertId : String) (st : AlertState) : AlertState :=
  { alerts := st.alerts.filter (fun a => a.id != alertId)
    modalVisible := if st.alerts.length ≤ 1 then false else st.modalVisible }

/-- The presentation object returned by `getMetricAlert` for inline display. -/
structure MetricAlertInfo where
  type : String
  message : String
  description : String
  icon : String
  color : String
  backgroundColor : String
deriving Repr, DecidableEq

/-- `getMetricAlert`: the per-card duplicate of the two threshold rules,
returning a presentation object or `null`.  A metric other than
`"Oil Level"` / `"Angle"`, a value that parses to `NaN`, or a value inside the
normal band falls through to `return null`. -/
def getMetricAlert (metric : String) (value : Option ℚ) : Option MetricAlertInfo :=
  if metric = "Oil Level" then
    match value with
    | none => none
    | some numValue =>
      if numValue ≠ 20 then
        if numValue < 20 then
          some { type := "low"
                 message := "🛢️ Oil Level LOW ALERT"
                 description := "Oil level is " ++ toFixed 1 numValue ++ "% (below threshold 20%)"
                 icon := "🔴"
                 color := "#ff0000"
                 backgroundColor := "rgba(255, 0, 0, 0.15)" }
        else if numValue > 20 then
          some { type := "high"
                 message := "🛢️ Oil Level HIGH ALERT"
                 description := "Oil level is " ++ toFixed 1 numValue ++ "% (above threshold 20%)"
                 icon := "🔴"
                 color := "#ff0000"
                 backgroundColor := "rgba(255, 0, 0, 0.15)" }
        else none
      else none
  else if metric = "Angle" then
    match value with
    | none => none
    | some numValue =>
      if numValue < -3.5 then
        some { type := "low"
               message := "📐 Angle LOW ALERT"
               description := "Angle is " ++ toFixed 2 numValue ++ "° (below -3.5° threshold)"
               icon := "🔴"
               color := "#ff0000"
               backgroundColor := "rgba(255, 0, 0, 0.15)" }
      else if numValue > 3.5 then
        some { type := "high"
               message := "📐 Angle HIGH ALERT"
               description := "Angle is " ++ toFixed 2 numValue ++ "° (above 3.5° threshold)"
               icon := "🔴"
               color := "#ff0000"
               backgroundColor := "rgba(255, 0, 0, 0.15)" }
      else none
  else none

/-!
## The trend classifier (`analyzeTrend`)

Source: `analyzeTrend(data, metric)`.  The series enters the function as
`data.map(item => parseFloat(item[metric]))`; the claims below all concern
series whose entries parse as numbers, so the model takes the list of parsed
rational values.  The source's local constants (`recentValues`, `avgValue`,
`stdDev`, `isAbnormal`, `rateOfChange`, the `insights` catalog, `suggestion`)
become named definitions so each can be reasoned about separately.
-/

/-- One entry of the inline `insights` catalog of `analyzeTrend`. -/
structure CatalogEntry where
  high : List String
  low : List String
  stable : List String
  prediction : String
deriving Repr, DecidableEq

/-- The inline `insights` catalog of `analyzeTrend`, verbatim. -/
def insightsCatalog (metric : String) : Option CatalogEntry :=
  match metric with
  | "current" => some
    { high := ["⚠️ High current detected. Risk of overload or short circuit.",
               "1. Check for any short circuits in the wiring system",
               "2. Verify load distribution across phases",
               "3. Inspect insulation resistance of equipment"]
      low := ["⚠️ Low current detected. Possible connection issues.",
              "1. Check for loose connections or disconnected components",
              "2. Verify power supply unit functionality",
              "3. Inspect circuit breakers and fuses"]
      stable := ["✅ Current levels are stable.",
                 "1. Continue monitoring for any fluctuations",
                 "2. Schedule next routine maintenance"]
      prediction := "Current trend analysis indicates potential issues in" }
  | "voltage" => some
    { high := ["⚠️ High voltage detected. Risk to equipment.",
               "1. Check voltage regulator settings",
               "2. Verify transformer tap settings",
               "3. Monitor power factor correction"]
      low := ["⚠️ Low voltage detected. Performance impact likely.",
              "1. Check for power supply issues",
              "2. Inspect distribution network",
              "3. Verify load balancing"]
      stable := ["✅ Voltage levels are stable.",
                 "1. Monitor power quality metrics",
                 "2. Review energy efficiency"]
      prediction := "Voltage trend suggests potential issues in" }
  | "temperature" => some
    { high := ["🔥 High temperature detected. Risk of equipment damage.",
               "1. Check cooling system efficiency",
               "2. Verify airflow and ventilation",
               "3. Inspect thermal insulation"]
      low := ["❄️ Low temperature detected. Check environment.",
              "1. Verify heating system operation",
              "2. Check for cold air infiltration",
              "3. Monitor ambient conditions"]
      stable := ["✅ Temperature is within safe range.",
                 "1. Continue monitoring thermal trends",
                 "2. Schedule preventive HVAC maintenance"]
      prediction := "Temperature trends indicate potential issues in" }
  | "humidity" => some
    { high := ["💧 High humidity detected. Risk of corrosion.",
               "1. Check dehumidification systems",
               "2. Inspect for water leaks",
               "3. Verify ventilation effectiveness"]
      low := ["🏜️ Low humidity detected. Static risk present.",
              "1. Check humidification systems",
              "2. Monitor material conditions",
              "3. Verify environmental seals"]
      stable := ["✅ Humidity levels are optimal.",
                 "1. Monitor seasonal variations",
                 "2. Check moisture barriers"]
      prediction := "Humidity conditions may affect equipment in" }
  | "oilLevel" => some
    { high := ["🛢️ High oil level detected. Risk of leakage.",
               "1. Check for overfilling conditions",
               "2. Inspect seals and gaskets",
               "3. Verify oil pressure readings"]
      low := ["⚠️ Low oil level detected. Maintenance needed.",
              "1. Check for leaks or consumption",
              "2. Schedule oil top-up",
              "3. Monitor oil pressure"]
      stable := ["✅ Oil levels are normal.",
                 "1. Plan next oil analysis",
                 "2. Monitor consumption rate"]
      prediction := "Oil maintenance may be needed in" }
  | "power" => some
    { high := ["⚡ High power consumption detected.",
               "1. Check for equipment overload",
               "2. Review active processes",
               "3. Monitor thermal conditions"]
      low := ["📉 Low power consumption detected.",
              "1. Verify equipment operation",
              "2. Check for partial shutdowns",
              "3. Review efficiency metrics"]
      stable := ["✅ Power consumption is optimal.",
                 "1. Continue monitoring load patterns",
                 "2. Schedule efficiency review"]
      prediction := "Power optimization may be needed in" }
  | "energy" => some
    { high := ["⚠️ High energy usage trend detected.",
               "1. Analyze consumption patterns",
               "2. Check for energy inefficiencies",
               "3. Consider load balancing"]
      low := ["📊 Low energy consumption detected.",
              "1. Verify all systems are operational",
              "2. Check for unexpected shutdowns",
              "3. Review production schedules"]
      stable := ["✅ Energy consumption is stable.",
                 "1. Monitor efficiency metrics",
                 "2. Plan energy audit"]
      prediction := "Energy optimization recommended in" }
  | "angle" => some
    { high := ["📐 High angle deviation detected.",
               "1. Check mechanical alignment",
               "2. Inspect mounting brackets",
               "3. Verify sensor calibration"]
      low := ["⚠️ Low angle position detected.",
              "1. Check for mechanical stress",
              "2. Verify position sensors",
              "3. Inspect mounting stability"]
      stable := ["✅ Angular position is stable.",
                 "1. Continue alignment monitoring",
                 "2. Schedule calibration check"]
      prediction := "Alignment check recommended in" }
  | _ => none

/-- The per-metric sensitivity multipliers (`thresholds[metric] || 2.0`). -/
def thresholds (metric : String) : ℚ :=
  match metric with
  | "temperature" => 2
  | "humidity" => 2
  | "voltage" => 3/2
  | "current" => 2
  | "oilLevel" => 3/2
  | "power" => 5/2
  | "energy" => 2
  | "angle" => 6/5
  | _ => 2

/-- `values.slice(-5)`: the window of the last up-to-5 readings. -/
def recentOf (values : List ℚ) : List ℚ := values.drop (values.length - 5)

/-- `recentValues[recentValues.length - 1]` (the window is never empty at its
use sites, so the default is unreachable). -/
def lastOf (l : List ℚ) : ℚ := l.getLastD 0

/-- `recentValues[0]` (same remark on the default). -/
def firstOf (l : List ℚ) : ℚ := l.headD 0

/-- `avgValue`: the arithmetic mean of the window. -/
def avgOf (l : List ℚ) : ℚ := l.sum / l.length

/-- The population variance of the window, i.e. the square of the source's
`stdDev = Math.sqrt(Σ (n − avg)² / length)`. -/
def varianceOf (l : List ℚ) : ℚ := (l.map (fun n => (n - avgOf l) ^ 2)).sum / l.length

/-- `isAbnormal = Math.abs(last − avgValue) > (thresholds[metric] || 2.0) * stdDev`.
Both sides of the source comparison are nonnegative, so it is equivalent to
comparing their squares; the squared form is exact in ℚ and avoids the
irrational square root.  (`abnormal_squared_faithful` below proves the
equivalence with the literal `√`-form.) -/
def isAbnormalOf (l : List ℚ) (metric : String) : Bool :=
  decide ((lastOf l - avgOf l) ^ 2 > thresholds metric ^ 2 * varianceOf l)

/-- `rateOfChange = ((last − first) / first) * 100`, with JavaScript's
division-by-zero semantics made explicit. -/
def rateOf (l : List ℚ) : JSNum :=
  jsMulPos (jsDivQ (lastOf l - firstOf l) (firstOf l)) 100

/-- `timeToThreshold = Math.abs((100 / rateOfChange) * 24)`. -/
def timeToThresholdOf (l : List ℚ) : JSNum :=
  jsAbs (jsMulPos (jsDivByn 100 (rateOf l)) 24)

/-- The `suggestion` array of `analyzeTrend`: abnormal readings pick the
`high`/`low` catalog list by the sign of `trend` (with a generic fallback for
an unlisted metric), and append the predictive sentence when
`Math.abs(rateOfChange) > 10`; normal readings pick the `stable` list. -/
def suggestionOf (l : List ℚ) (metric : String) : List String :=
  if isAbnormalOf l metric then
    let base :=
      if lastOf l - firstOf l > 0 then
        match insightsCatalog metric with
        | some e => e.high
        | none => ["⚠️ Abnormal increase in " ++ metric ++ " detected."]
      else
        match insightsCatalog metric with
        | some e => e.low
        | none => ["⚠️ Abnormal decrease in " ++ metric ++ " detected."]
    if jsGtQ (jsAbs (rateOf l)) 10 then
      base ++ [(match insightsCatalog metric with
                | some e => e.prediction
                | none => "May require attention in") ++ " " ++
               jsToFixed 1 (timeToThresholdOf l) ++ " hours."]
    else base
  else
    match insightsCatalog metric with
    | some e => e.stable
    | none => ["✅ " ++ metric ++ " levels are stable."]

/-- The insight payload returned by `analyzeTrend`. -/
structure TrendInsight where
  trend : ℚ
  isAbnormal : Bool
  suggestion : List String
  rateOfChange : String
deriving Repr, DecidableEq

/-- `analyzeTrend(data, metric)`: `null` below 2 samples, otherwise the
insight computed over the last-up-to-5 window of the parsed series. -/
def analyzeTrend (values : List ℚ) (metric : String) : Option TrendInsight :=
  if values.length < 2 then none
  else
    let r := recentOf values
    some { trend := lastOf r - firstOf r
           isAbnormal := isAbnormalOf r metric
           suggestion := suggestionOf r metric
           rateOfChange := jsToFixed 1 (rateOf r) ++ "%/hour" }

/-!
## The statistics aggregator (`calculateStatistics`)

Source: `calculateStatistics()` (the identical helper appears twice in the
component; the two copies are byte-for-byte the same).  It reads the full
`data` series and `latestValues`; a sample enters the model with each metric
field as the result of `parseFloat` (`none` for `NaN`).
-/

/-- One telemetry sample projected onto the eight metric fields, each the
result of `parseFloat` (`none` models a `NaN`/missing value). -/
structure TelemetrySample where
  temperature : Option ℚ
  humidity : Option ℚ
  oilLevel : Option ℚ
  voltage : Option ℚ
  current : Option ℚ
  power : Option ℚ
  energy : Option ℚ
  angle : Option ℚ
deriving Repr, DecidableEq

/-- `d[metric]` for the metric names `calculateStatistics` iterates over. -/
def getField (metric : String) (s : TelemetrySample) : Option ℚ :=
  match metric with
  | "temperature" => s.temperature
  | "humidity" => s.humidity
  | "oilLevel" => s.oilLevel
  | "voltage" => s.voltage
  | "current" => s.current
  | "power" => s.power
  | "energy" => s.energy
  | "angle" => s.angle
  | _ => none

/-- The metric list `calculateStatistics` iterates over. -/
def metricsList : List String :=
  ["temperature", "humidity", "oilLevel", "voltage", "current", "power", "energy", "angle"]

/-- `metric.charAt(0).toUpperCase() + metric.slice(1)`. -/
def capitalize (s : String) : String :=
  match s.data with
  | [] => ""
  | c :: cs => String.mk (c.toUpper :: cs)

/-- `Math.min(...values)` on a non-empty list (the empty default is guarded
out at the call site). -/
def jsMin (l : List ℚ) : ℚ :=
  match l with
  | [] => 0
  | x :: xs => xs.foldl min x

/-- `Math.max(...values)` on a non-empty list. -/
def jsMax (l : List ℚ) : ℚ :=
  match l with
  | [] => 0
  | x :: xs => xs.foldl max x

/-- `formatValue(value, precision)`: `'—'` for a missing value, `toFixed`
otherwise. -/
def formatValue (value : Option ℚ) (precision : ℕ) : String :=
  match value with
  | none => "—"
  | some v => toFixed precision v

/-- One `{min, max, avg, current}` record of the statistics object. -/
structure StatEntry where
  min : String
  max : String
  avg : String
  current : String
deriving Repr, DecidableEq

/-- `calculateStatistics()`: the empty object for an empty series, otherwise
one entry per metric that has at least one numeric value, keyed by the
capitalized metric name. -/
def calculateStatistics (data : List TelemetrySample) (latestValues : TelemetrySample) :
    List (String × StatEntry) :=
  if data.length = 0 then []
  else
    metricsList.filterMap (fun metric =>
      let values := data.filterMap (getField metric)
      if 0 < values.length then
        some (capitalize metric,
          { min := toFixed 2 (jsMin values)
            max := toFixed 2 (jsMax values)
            avg := toFixed 2 (values.sum / values.length)
            current := formatValue (getField metric latestValues) 1 })
      else none)

/-!
## Concrete inputs used by the witnesses
-/

/-- A stale alert left over from an earlier evaluation pass. -/
def staleAlert : Alert :=
  { id := "a", metric := "Oil Level", severity := "critical", message := "m",
    currentValue := "5.0%", threshold := "20%", description := "d", timestamp := "t" }

/-- A second queued alert, with a distinct identifier. -/
def otherAlert : Alert :=
  { id := "b", metric := "Angle", severity := "critical", message := "m2",
    currentValue := "5.00°", threshold := "Normal range: -3.5° to 3.5°",
    description := "d2", timestamp := "t" }

/-- A sample with every metric field missing. -/
def sampleBlank : TelemetrySample :=
  { temperature := none, humidity := none, oilLevel := none, voltage := none,
    current := none, power := none, energy := none, angle := none }

/-- A sample carrying only a temperature reading. -/
def sampleTemp (v : ℚ) : TelemetrySample := { sampleBlank with temperature := some v }

/-- The three-sample temperature series `[10, 20, 30]` of the spec's example. -/
def exampleSeries : List TelemetrySample := [sampleTemp 10, sampleTemp 20, sampleTemp 30]

/-!
## Theorems

First the sanity checks and general helper lemmas, then one theorem per claim
(with a witness or counterexample where required).
-/

/-- Sanity check of the `toFixed` model on values the source renders. -/
theorem toFixed_examples :
    toFixed 1 50 = "50.0" ∧ toFixed 2 (-35/10) = "-3.50" ∧
    toFixed 2 (10 : ℚ) = "10.00" ∧ toFixed 1 48 = "48.0" := by
  decide

/-- The result of an evaluation pass always carries exactly the alerts the two
rules produce from the latest values (both branches of the source's final `if`
store that list: the non-empty branch stores it as is, the empty branch stores
`[]`). -/
theorem alerts_of_check (oil angle : Option ℚ) (oilId angleId ts : String) (st : AlertState) :
    (checkForCriticalAlerts oil angle oilId angleId ts st).alerts =
      oilAlerts oil oilId ts ++ angleAlerts angle angleId ts := by
  simp only [checkForCriticalAlerts]
  split
  · rfl
  · next h =>
    have h0 : (oilAlerts oil oilId ts ++ angleAlerts angle angleId ts).length = 0 := by omega
    exact (List.length_eq_zero.mp h0).symm

/-- Angle-rule alerts never carry the metric name "Oil Level". -/
theorem angle_filter_not_oil (angle : Option ℚ) (angleId ts : String) :
    (angleAlerts angle angleId ts).filter (fun al => al.metric == "Oil Level") = [] := by
  cases angle with
  | none => rfl
  | some w =>
    simp only [angleAlerts]
    split
    · rw [List.filter_cons_of_neg Bool.false_ne_true]; rfl
    · rfl

/-- Oil-rule alerts never carry the metric name "Angle". -/
theorem oil_filter_not_angle (oil : Option ℚ) (oilId ts : String) :
    (oilAlerts oil oilId ts).filter (fun al => al.metric == "Angle") = [] := by
  cases oil with
  | none => rfl
  | some w =>
    simp only [oilAlerts]
    split
    · rw [List.filter_cons_of_neg Bool.false_ne_true]; rfl
    · rfl

/-- C1: For every latest sample whose oil level parses as a number, one
evaluation pass produces no oil-level alert when the value is exactly 20, and
exactly one otherwise; that alert has severity "critical", its message is
labelled "LOW" below 20 and "HIGH" above, its current value is the reading to
one decimal, its threshold is the fixed "20%", and its description contains
the reading to one decimal and the fixed threshold "20%". -/
theorem claim1_oil_level_rule (v : ℚ) (angle : Option ℚ) (oilId angleId ts : String)
    (st : AlertState) :
    (v = 20 → (checkForCriticalAlerts (some v) angle oilId angleId ts st).alerts.filter
        (fun al => al.metric == "Oil Level") = []) ∧
    (v ≠ 20 → ∃ a, (checkForCriticalAlerts (some v) angle oilId angleId ts st).alerts.filter
        (fun al => al.metric == "Oil Level") = [a] ∧
      a.severity = "critical" ∧
      a.message = "🛢️ Oil Level " ++ (if v < 20 then "LOW" else "HIGH") ++ " ALERT" ∧
      a.currentValue = toFixed 1 v ++ "%" ∧
      a.threshold = "20%" ∧
      (∃ p q, a.description = p ++ toFixed 1 v ++ q) ∧
      (∃ p q, a.description = p ++ "20%" ++ q)) := by
  rw [alerts_of_check, List.filter_append, angle_filter_not_oil, List.append_nil]
  constructor
  · intro hv
    subst hv
    simp [oilAlerts]
  · intro hv
    have hoil : oilAlerts (some v) oilId ts =
        [{ id := oilId
           metric := "Oil Level"
           severity := "critical"
           message := "🛢️ Oil Level " ++ (if v < 20 then "LOW" else "HIGH") ++ " ALERT"
           currentValue := toFixed 1 v ++ "%"
           threshold := "20%"
           description := "Oil level is " ++ toFixed 1 v ++ "% (" ++
             (if v < 20 then "below" else "above") ++ " threshold 20%)"
           timestamp := ts }] := by
      simp [oilAlerts, hv]
    rw [hoil, List.filter_cons_of_pos rfl]
    refine ⟨_, rfl, rfl, rfl, rfl, rfl, ?_, ?_⟩
    · exact ⟨"Oil level is ",
        "% (" ++ (if v < 20 then "below" else "above") ++ " threshold 20%)",
        by simp [String.append_assoc]⟩
    · refine ⟨"Oil level is " ++ toFixed 1 v ++ "% (" ++
        (if v < 20 then "below" else "above") ++ " threshold ", ")", ?_⟩
      have hsplit : (" threshold 20%)" : String) = " threshold " ++ "20%" ++ ")" := by decide
      rw [hsplit]
      simp [String.append_assoc]

/-- Witness for C1 at the concrete reading 25 (≠ 20, hence "HIGH"). -/
theorem claim1_oil_level_rule_witness :
    ∃ a, (checkForCriticalAlerts (some 25) none "o" "g" "t"
        { alerts := [], modalVisible := false }).alerts.filter
        (fun al => al.metric == "Oil Level") = [a] ∧
      a.severity = "critical" ∧
      a.message = "🛢️ Oil Level " ++ (if (25 : ℚ) < 20 then "LOW" else "HIGH") ++ " ALERT" ∧
      a.currentValue = toFixed 1 25 ++ "%" ∧
      a.threshold = "20%" ∧
      (∃ p q, a.description = p ++ toFixed 1 25 ++ q) ∧
      (∃ p q, a.description = p ++ "20%" ++ q) :=
  (claim1_oil_level_rule 25 none "o" "g" "t" { alerts := [], modalVisible := false }).2
    (by norm_num)

/-- C2: For every latest sample whose angle parses as a number, one evaluation
pass produces no angle alert when the value lies in the closed band
`[-3.5, 3.5]`, and exactly one otherwise; that alert has severity "critical",
its message is labelled "LOW" below −3.5 and "HIGH" above 3.5, its current
value is the reading to two decimals, its threshold names the fixed band
"-3.5° to 3.5°", and its description contains the reading to two decimals. -/
theorem claim2_angle_rule (v : ℚ) (oil : Option ℚ) (oilId angleId ts : String)
    (st : AlertState) :
    (-3.5 ≤ v ∧ v ≤ 3.5 → (checkForCriticalAlerts oil (some v) oilId angleId ts st).alerts.filter
        (fun al => al.metric == "Angle") = []) ∧
    (v < -3.5 ∨ v > 3.5 → ∃ a, (checkForCriticalAlerts oil (some v) oilId angleId ts st).alerts.filter
        (fun al => al.metric == "Angle") = [a] ∧
      a.severity = "critical" ∧
      a.message = "📐 Angle " ++ (if v < -3.5 then "LOW" else "HIGH") ++ " ALERT" ∧
      a.currentValue = toFixed 2 v ++ "°" ∧
      (∃ p q, a.threshold = p ++ "-3.5° to 3.5°" ++ q) ∧
      (∃ p q, a.description = p ++ toFixed 2 v ++ q)) := by
  rw [alerts_of_check, List.filter_append, oil_filter_not_angle, List.nil_append]
  constructor
  · rintro ⟨h1, h2⟩
    have hcond : ¬(v < -3.5 ∨ v > 3.5) := by
      rintro (h | h) <;> linarith
    simp [angleAlerts, hcond]
  · intro hv
    have hang : angleAlerts (some v) angleId ts =
        [{ id := angleId
           metric := "Angle"
           severity := "critical"
           message := "📐 Angle " ++ (if v < -3.5 then "LOW" else "HIGH") ++ " ALERT"
           currentValue := toFixed 2 v ++ "°"
           threshold := "Normal range: -3.5° to 3.5°"
           description := "Angle is " ++ toFixed 2 v ++ "° (" ++
             (if v < -3.5 then "below -3.5°" else "above 3.5°") ++ " threshold)"
           timestamp := ts }] := by
      simp [angleAlerts, hv]
    rw [hang, List.filter_cons_of_pos rfl]
    refine ⟨_, rfl, rfl, rfl, rfl, ?_, ?_⟩
    · exact ⟨"Normal range: ", "", rfl⟩
    · exact ⟨"Angle is ",
        "° (" ++ (if v < -3.5 then "below -3.5°" else "above 3.5°") ++ " threshold)",
        by simp [String.append_assoc]⟩

/-- Witness for C2 at the concrete readings −4 ("LOW") and 5 ("HIGH"). -/
theorem claim2_angle_rule_witness :
    (∃ a, (checkForCriticalAlerts none (some (-4)) "o" "g" "t"
        { alerts := [], modalVisible := false }).alerts.filter
        (fun al => al.metric == "Angle") = [a] ∧
      a.severity = "critical" ∧
      a.message = "📐 Angle " ++ (if (-4 : ℚ) < -3.5 then "LOW" else "HIGH") ++ " ALERT" ∧
      a.currentValue = toFixed 2 (-4) ++ "°" ∧
      (∃ p q, a.threshold = p ++ "-3.5° to 3.5°" ++ q) ∧
      (∃ p q, a.description = p ++ toFixed 2 (-4) ++ q)) ∧
    (∃ a, (checkForCriticalAlerts none (some 5) "o" "g" "t"
        { alerts := [], modalVisible := false }).alerts.filter
        (fun al => al.metric == "Angle") = [a] ∧
      a.severity = "critical" ∧
      a.message = "📐 Angle " ++ (if (5 : ℚ) < -3.5 then "LOW" else "HIGH") ++ " ALERT" ∧
      a.currentValue = toFixed 2 5 ++ "°" ∧
      (∃ p q, a.threshold = p ++ "-3.5° to 3.5°" ++ q) ∧
      (∃ p q, a.description = p ++ toFixed 2 5 ++ q)) :=
  ⟨(claim2_angle_rule (-4) none "o" "g" "t" { alerts := [], modalVisible := false }).2
      (Or.inl (by norm_num)),
    (claim2_angle_rule 5 none "o" "g" "t" { alerts := [], modalVisible := false }).2
      (Or.inr (by norm_num))⟩

/-- C5: Every evaluation pass replaces the whole alert list with exactly what
the two rules produce from the latest sample (nothing from the previous state
survives); a non-empty result forces the modal open, an empty one clears the
list and leaves the modal flag unchanged. -/
theorem claim5_replace_policy (oil angle : Option ℚ) (oilId angleId ts : String)
    (st : AlertState) :
    (checkForCriticalAlerts oil angle oilId angleId ts st).alerts =
      oilAlerts oil oilId ts ++ angleAlerts angle angleId ts ∧
    ((checkForCriticalAlerts oil angle oilId angleId ts st).alerts ≠ [] →
      (checkForCriticalAlerts oil angle oilId angleId ts st).modalVisible = true) ∧
    ((checkForCriticalAlerts oil angle oilId angleId ts st).alerts = [] →
      (checkForCriticalAlerts oil angle oilId angleId ts st).modalVisible = st.modalVisible) := by
  have hck : checkForCriticalAlerts oil angle oilId angleId ts st =
      if 0 < (oilAlerts oil oilId ts ++ angleAlerts angle angleId ts).length then
        { alerts := oilAlerts oil oilId ts ++ angleAlerts angle angleId ts, modalVisible := true }
      else
        { alerts := [], modalVisible := st.modalVisible } := rfl
  refine ⟨alerts_of_check oil angle oilId angleId ts st, ?_, ?_⟩
  · intro hne
    by_cases h : 0 < (oilAlerts oil oilId ts ++ angleAlerts angle angleId ts).length
    · rw [hck, if_pos h]
    · exfalso
      exact hne (by rw [hck, if_neg h])
  · intro he
    by_cases h : 0 < (oilAlerts oil oilId ts ++ angleAlerts angle angleId ts).length
    · exfalso
      rw [alerts_of_check] at he
      rw [he] at h
      simp at h
    · rw [hck, if_neg h]

/-- Witness for C5: with a stale alert queued and the modal closed, a pass over
oil level 25 discards the stale alert and forces the modal open. -/
theorem claim5_replace_policy_witness :
    (checkForCriticalAlerts (some 25) (some 0) "o" "g" "t"
        { alerts := [staleAlert], modalVisible := false }).alerts =
      oilAlerts (some 25) "o" "t" ++ angleAlerts (some 0) "g" "t" ∧
    (checkForCriticalAlerts (some 25) (some 0) "o" "g" "t"
        { alerts := [staleAlert], modalVisible := false }).modalVisible = true := by
  have h := claim5_replace_policy (some 25) (some 0) "o" "g" "t"
      { alerts := [staleAlert], modalVisible := false }
  exact ⟨h.1, h.2.1 (by decide)⟩

/-- C6 counterexample: with exactly one alert queued and the modal open,
dismissing an identifier that matches nothing still closes the modal even
though the alert remains queued — the source closes the modal from the stale
pre-update length, not from the post-removal queue. -/
theorem claim6_counterexample :
    (dismissAlert "b" { alerts := [staleAlert], modalVisible := true }).alerts = [staleAlert] ∧
    (dismissAlert "b" { alerts := [staleAlert], modalVisible := true }).modalVisible = false := by
  exact ⟨rfl, rfl⟩

/-- Removing the unique alert carrying a queued identifier shortens the queue
by exactly one. -/
theorem filter_ne_length {l : List Alert} {x : String}
    (hnd : (l.map Alert.id).Nodup) (hx : x ∈ l.map Alert.id) :
    (l.filter (fun a => a.id != x)).length + 1 = l.length := by
  induction l with
  | nil => simp at hx
  | cons a t ih =>
    rw [List.map_cons, List.nodup_cons] at hnd
    rw [List.map_cons, List.mem_cons] at hx
    by_cases hax : a.id = x
    · have ht : t.filter (fun b => b.id != x) = t := by
        rw [List.filter_eq_self]
        intro b hb
        have hbx : b.id ≠ x := by
          intro he
          apply hnd.1
          rw [hax]
          exact List.mem_map.mpr ⟨b, hb, he⟩
        simpa using hbx
      rw [List.filter_cons_of_neg (by simp [hax]), ht]
      rfl
    · have hx' : x ∈ t.map Alert.id := by
        rcases hx with hx | hx
        · exact absurd hx.symm hax
        · exact hx
      rw [List.filter_cons_of_pos (by simpa using hax), List.length_cons, List.length_cons]
      have := ih hnd.2 hx'
      omega

/-- C6 (amended): `dismissAlert` filters the queue by identifier, but closes
the modal exactly when the *pre-removal* queue holds at most one alert.  When
the queued identifiers are pairwise distinct, the dismissed identifier is
actually queued and the modal is open — the situation the spec sentence
describes — this coincides with the spec's rule: the queue shrinks by exactly
one and the modal is closed iff the queue became empty. -/
theorem claim6_dismiss_modal (alertId : String) (st : AlertState)
    (hnd : (st.alerts.map Alert.id).Nodup)
    (hmem : alertId ∈ st.alerts.map Alert.id)
    (hvis : st.modalVisible = true) :
    (dismissAlert alertId st).alerts.length + 1 = st.alerts.length ∧
    ((dismissAlert alertId st).modalVisible = false ↔ (dismissAlert alertId st).alerts = []) := by
  have hlen := filter_ne_length hnd hmem
  have hpos : 1 ≤ st.alerts.length := by
    have hne : st.alerts ≠ [] := by
      intro he
      rw [he] at hmem
      simp at hmem
    have := List.length_pos.mpr hne
    omega
  refine ⟨hlen, ?_⟩
  show (if st.alerts.length ≤ 1 then false else st.modalVisible) = false ↔ _
  by_cases hc : st.alerts.length ≤ 1
  · rw [if_pos hc]
    have h1 : st.alerts.length = 1 := le_antisymm hc hpos
    constructor
    · intro _
      have h0 : (st.alerts.filter (fun a => a.id != alertId)).length = 0 := by omega
      exact List.length_eq_zero.mp h0
    · intro _
      rfl
  · rw [if_neg hc, hvis]
    constructor
    · intro h
      exact absurd h (by simp)
    · intro h
      exfalso
      have h0 : (st.alerts.filter (fun a => a.id != alertId)).length = 0 := by
        rw [show (dismissAlert alertId st).alerts =
          st.alerts.filter (fun a => a.id != alertId) from rfl] at h
        rw [h]
        rfl
      omega

/-- Witness for C6 (amended): dismissing "a" from a two-alert queue with
distinct identifiers removes one alert and leaves the modal open. -/
theorem claim6_dismiss_modal_witness :
    (dismissAlert "a" { alerts := [staleAlert, otherAlert], modalVisible := true }).alerts.length + 1 =
      ([staleAlert, otherAlert] : List Alert).length ∧
    ((dismissAlert "a" { alerts := [staleAlert, otherAlert], modalVisible := true }).modalVisible = false ↔
      (dismissAlert "a" { alerts := [staleAlert, otherAlert], modalVisible := true }).alerts = []) :=
  claim6_dismiss_modal "a" { alerts := [staleAlert, otherAlert], modalVisible := true }
    (by decide) (by decide) rfl

/-- C10: `dismissAlert` keeps every alert whose identifier differs, unchanged
and in the original relative order (the kept list is a sublist of the
original), and removes only alerts carrying the dismissed identifier; if no
queued alert carries it, the list is unchanged. -/
theorem claim10_dismiss_frame (alertId : String) (st : AlertState) :
    (dismissAlert alertId st).alerts.Sublist st.alerts ∧
    (∀ a ∈ st.alerts, a.id ≠ alertId → a ∈ (dismissAlert alertId st).alerts) ∧
    (∀ a ∈ (dismissAlert alertId st).alerts, a ∈ st.alerts ∧ a.id ≠ alertId) ∧
    ((∀ a ∈ st.alerts, a.id ≠ alertId) → (dismissAlert alertId st).alerts = st.alerts) := by
  refine ⟨List.filter_sublist _, ?_, ?_, ?_⟩
  · intro a ha hne
    exact List.mem_filter.mpr ⟨ha, by simpa using hne⟩
  · intro a ha
    have h := List.mem_filter.mp ha
    exact ⟨h.1, by simpa using h.2⟩
  · intro hall
    rw [show (dismissAlert alertId st).alerts =
      st.alerts.filter (fun a => a.id != alertId) from rfl, List.filter_eq_self]
    intro a ha
    simpa using hall a ha

/-- Witness for C10: dismissing an identifier that matches no queued alert
leaves the two-alert queue exactly as it was. -/
theorem claim10_dismiss_frame_witness :
    (dismissAlert "zzz" { alerts := [staleAlert, otherAlert], modalVisible := true }).alerts =
      [staleAlert, otherAlert] := by
  have h := claim10_dismiss_frame "zzz" { alerts := [staleAlert, otherAlert], modalVisible := true }
  exact h.2.2.2 (by decide)

/-- C7: The inline per-card indicator applies exactly the queue's threshold
logic: for every parsed value, `getMetricAlert "Oil Level"` returns an object
exactly when the oil rule queues an alert (and likewise for `"Angle"`), and
the object's "low"/"high" type always agrees with the queued alert's
"LOW"/"HIGH" message label. -/
theorem claim7_inline_matches_queue (v : Option ℚ) (oilId angleId ts : String) :
    ((getMetricAlert "Oil Level" v).toList.length = (oilAlerts v oilId ts).length) ∧
    ((∃ o, getMetricAlert "Oil Level" v = some o ∧ o.type = "low") ↔
      (∃ a, oilAlerts v oilId ts = [a] ∧ a.message = "🛢️ Oil Level LOW ALERT")) ∧
    ((∃ o, getMetricAlert "Oil Level" v = some o ∧ o.type = "high") ↔
      (∃ a, oilAlerts v oilId ts = [a] ∧ a.message = "🛢️ Oil Level HIGH ALERT")) ∧
    ((getMetricAlert "Angle" v).toList.length = (angleAlerts v angleId ts).length) ∧
    ((∃ o, getMetricAlert "Angle" v = some o ∧ o.type = "low") ↔
      (∃ a, angleAlerts v angleId ts = [a] ∧ a.message = "📐 Angle LOW ALERT")) ∧
    ((∃ o, getMetricAlert "Angle" v = some o ∧ o.type = "high") ↔
      (∃ a, angleAlerts v angleId ts = [a] ∧ a.message = "📐 Angle HIGH ALERT")) := by
  rcases v with _ | w
  · refine ⟨rfl, ?_, ?_, rfl, ?_, ?_⟩ <;> simp [getMetricAlert, oilAlerts, angleAlerts]
  · have hoilLT : ∀ (h : w < 20), oilAlerts (some w) oilId ts =
        [{ id := oilId, metric := "Oil Level", severity := "critical",
           message := "🛢️ Oil Level LOW ALERT",
           currentValue := toFixed 1 w ++ "%", threshold := "20%",
           description := "Oil level is " ++ toFixed 1 w ++ "% (" ++ "below" ++ " threshold 20%)",
           timestamp := ts }] := by
      intro h
      simp [oilAlerts, h, h.ne]
    have hoilGT : ∀ (h : 20 < w), oilAlerts (some w) oilId ts =
        [{ id := oilId, metric := "Oil Level", severity := "critical",
           message := "🛢️ Oil Level HIGH ALERT",
           currentValue := toFixed 1 w ++ "%", threshold := "20%",
           description := "Oil level is " ++ toFixed 1 w ++ "% (" ++ "above" ++ " threshold 20%)",
           timestamp := ts }] := by
      intro h
      simp [oilAlerts, h.ne', not_lt.mpr h.le]
    have hoilEQ : oilAlerts (some 20) oilId ts = [] := by
      simp [oilAlerts]
    have hangLT : ∀ (h : w < -3.5), angleAlerts (some w) angleId ts =
        [{ id := angleId, metric := "Angle", severity := "critical",
           message := "📐 Angle LOW ALERT",
           currentValue := toFixed 2 w ++ "°", threshold := "Normal range: -3.5° to 3.5°",
           description := "Angle is " ++ toFixed 2 w ++ "° (" ++ "below -3.5°" ++ " threshold)",
           timestamp := ts }] := by
      intro h
      simp [angleAlerts, h, Or.inl h]
    have hangGT : ∀ (_ : ¬w < -3.5) (h2 : w > 3.5), angleAlerts (some w) angleId ts =
        [{ id := angleId, metric := "Angle", severity := "critical",
           message := "📐 Angle HIGH ALERT",
           currentValue := toFixed 2 w ++ "°", threshold := "Normal range: -3.5° to 3.5°",
           description := "Angle is " ++ toFixed 2 w ++ "° (" ++ "above 3.5°" ++ " threshold)",
           timestamp := ts }] := by
      intro h1 h2
      simp [angleAlerts, h1, h2, Or.inr h2]
    have hangMid : ∀ (_ : ¬w < -3.5) (_ : ¬w > 3.5), angleAlerts (some w) angleId ts = [] := by
      intro h1 h2
      have hcond : ¬(w < -3.5 ∨ w > 3.5) := by
        rintro (h | h)
        · exact h1 h
        · exact h2 h
      simp [angleAlerts, hcond]
    have gmOilLT : ∀ (h : w < 20), getMetricAlert "Oil Level" (some w) = some
        { type := "low", message := "🛢️ Oil Level LOW ALERT",
          description := "Oil level is " ++ toFixed 1 w ++ "% (below threshold 20%)",
          icon := "🔴", color := "#ff0000", backgroundColor := "rgba(255, 0, 0, 0.15)" } := by
      intro h
      simp [getMetricAlert, h, h.ne]
    have gmOilGT : ∀ (h : 20 < w), getMetricAlert "Oil Level" (some w) = some
        { type := "high", message := "🛢️ Oil Level HIGH ALERT",
          description := "Oil level is " ++ toFixed 1 w ++ "% (above threshold 20%)",
          icon := "🔴", color := "#ff0000", backgroundColor := "rgba(255, 0, 0, 0.15)" } := by
      intro h
      simp [getMetricAlert, h, h.ne', not_lt.mpr h.le]
    have gmOilEQ : getMetricAlert "Oil Level" (some 20) = none := by
      simp [getMetricAlert]
    have gmAngLT : ∀ (h : w < -3.5), getMetricAlert "Angle" (some w) = some
        { type := "low", message := "📐 Angle LOW ALERT",
          description := "Angle is " ++ toFixed 2 w ++ "° (below -3.5° threshold)",
          icon := "🔴", color := "#ff0000", backgroundColor := "rgba(255, 0, 0, 0.15)" } := by
      intro h
      simp [getMetricAlert, h]
    have gmAngGT : ∀ (_ : ¬w < -3.5) (h2 : w > 3.5), getMetricAlert "Angle" (some w) = some
        { type := "high", message := "📐 Angle HIGH ALERT",
          description := "Angle is " ++ toFixed 2 w ++ "° (above 3.5° threshold)",
          icon := "🔴", color := "#ff0000", backgroundColor := "rgba(255, 0, 0, 0.15)" } := by
      intro h1 h2
      simp [getMetricAlert, h1, h2]
    have gmAngMid : ∀ (_ : ¬w < -3.5) (_ : ¬w > 3.5), getMetricAlert "Angle" (some w) = none := by
      intro h1 h2
      simp [getMetricAlert, h1, h2]
    refine ⟨?_, ?_, ?_, ?_, ?_, ?_⟩
    · rcases lt_trichotomy w 20 with hlt | heq | hgt
      · rw [gmOilLT hlt, hoilLT hlt]
        rfl
      · subst heq
        rw [gmOilEQ, hoilEQ]
        rfl
      · rw [gmOilGT hgt, hoilGT hgt]
        rfl
    · rcases lt_trichotomy w 20 with hlt | heq | hgt
      · rw [gmOilLT hlt, hoilLT hlt]
        constructor
        · intro _
          exact ⟨_, rfl, rfl⟩
        · intro _
          exact ⟨_, rfl, rfl⟩
      · subst heq
        rw [gmOilEQ, hoilEQ]
        simp
      · rw [gmOilGT hgt, hoilGT hgt]
        constructor
        · rintro ⟨o, ho, hty⟩
          rw [Option.some_inj] at ho
          subst ho
          exact ((by decide : ¬("high" : String) = "low") hty).elim
        · rintro ⟨a, ha, hmsg⟩
          rw [List.cons_eq_cons] at ha
          rw [← ha.1] at hmsg
          exact ((by decide :
            ¬("🛢️ Oil Level HIGH ALERT" : String) = "🛢️ Oil Level LOW ALERT") hmsg).elim
    · rcases lt_trichotomy w 20 with hlt | heq | hgt
      · rw [gmOilLT hlt, hoilLT hlt]
        constructor
        · rintro ⟨o, ho, hty⟩
          rw [Option.some_inj] at ho
          subst ho
          exact ((by decide : ¬("low" : String) = "high") hty).elim
        · rintro ⟨a, ha, hmsg⟩
          rw [List.cons_eq_cons] at ha
          rw [← ha.1] at hmsg
          exact ((by decide :
            ¬("🛢️ Oil Level LOW ALERT" : String) = "🛢️ Oil Level HIGH ALERT") hmsg).elim
      · subst heq
        rw [gmOilEQ, hoilEQ]
        simp
      · rw [gmOilGT hgt, hoilGT hgt]
        constructor
        · intro _
          exact ⟨_, rfl, rfl⟩
        · intro _
          exact ⟨_, rfl, rfl⟩
    · by_cases h1 : w < -3.5
      · rw [gmAngLT h1, hangLT h1]
        rfl
      · by_cases h2 : w > 3.5
        · rw [gmAngGT h1 h2, hangGT h1 h2]
          rfl
        · rw [gmAngMid h1 h2, hangMid h1 h2]
          rfl
    · by_cases h1 : w < -3.5
      · rw [gmAngLT h1, hangLT h1]
        constructor
        · intro _
          exact ⟨_, rfl, rfl⟩
        · intro _
          exact ⟨_, rfl, rfl⟩
      · by_cases h2 : w > 3.5
        · rw [gmAngGT h1 h2, hangGT h1 h2]
          constructor
          · rintro ⟨o, ho, hty⟩
            rw [Option.some_inj] at ho
            subst ho
            exact ((by decide : ¬("high" : String) = "low") hty).elim
          · rintro ⟨a, ha, hmsg⟩
            rw [List.cons_eq_cons] at ha
            rw [← ha.1] at hmsg
            exact ((by decide :
              ¬("📐 Angle HIGH ALERT" : String) = "📐 Angle LOW ALERT") hmsg).elim
        · rw [gmAngMid h1 h2, hangMid h1 h2]
          simp
    · by_cases h1 : w < -3.5
      · rw [gmAngLT h1, hangLT h1]
        constructor
        · rintro ⟨o, ho, hty⟩
          rw [Option.some_inj] at ho
          subst ho
          exact ((by decide : ¬("low" : String) = "high") hty).elim
        · rintro ⟨a, ha, hmsg⟩
          rw [List.cons_eq_cons] at ha
          rw [← ha.1] at hmsg
          exact ((by decide :
            ¬("📐 Angle LOW ALERT" : String) = "📐 Angle HIGH ALERT") hmsg).elim
      · by_cases h2 : w > 3.5
        · rw [gmAngGT h1 h2, hangGT h1 h2]
          constructor
          · intro _
            exact ⟨_, rfl, rfl⟩
          · intro _
            exact ⟨_, rfl, rfl⟩
        · rw [gmAngMid h1 h2, hangMid h1 h2]
          simp

/-- The squared comparison in `isAbnormalOf` is equivalent to the source's
literal comparison `Math.abs(last − avg) > multiplier * Math.sqrt(variance)`
over the reals: both sides of the source comparison are nonnegative, so
comparing squares is exact. -/
theorem abnormal_squared_faithful (l : List ℚ) (metric : String) :
    isAbnormalOf l metric = true ↔
      |((lastOf l : ℚ) : ℝ) - ((avgOf l : ℚ) : ℝ)| >
        ((thresholds metric : ℚ) : ℝ) * Real.sqrt ((varianceOf l : ℚ) : ℝ) := by
  have hvq : (0 : ℚ) ≤ varianceOf l := by
    unfold varianceOf
    apply div_nonneg
    · apply List.sum_nonneg
      intro x hx
      rcases List.mem_map.mp hx with ⟨y, _, rfl⟩
      positivity
    · positivity
  have hv : (0 : ℝ) ≤ ((varianceOf l : ℚ) : ℝ) := by exact_mod_cast hvq
  have hmq : (0 : ℚ) ≤ thresholds metric := by
    unfold thresholds
    split <;> norm_num
  have hm : (0 : ℝ) ≤ ((thresholds metric : ℚ) : ℝ) := by exact_mod_cast hmq
  rw [isAbnormalOf, decide_eq_true_eq]
  constructor
  · intro h
    have h' : (((lastOf l : ℚ) : ℝ) - ((avgOf l : ℚ) : ℝ)) ^ 2 >
        ((thresholds metric : ℚ) : ℝ) ^ 2 * ((varianceOf l : ℚ) : ℝ) := by
      exact_mod_cast h
    by_contra hc
    push_neg at hc
    nlinarith [Real.sq_sqrt hv, Real.sqrt_nonneg ((varianceOf l : ℚ) : ℝ),
      abs_nonneg (((lastOf l : ℚ) : ℝ) - ((avgOf l : ℚ) : ℝ)),
      sq_abs (((lastOf l : ℚ) : ℝ) - ((avgOf l : ℚ) : ℝ))]
  · intro h
    have h' : (((lastOf l : ℚ) : ℝ) - ((avgOf l : ℚ) : ℝ)) ^ 2 >
        ((thresholds metric : ℚ) : ℝ) ^ 2 * ((varianceOf l : ℚ) : ℝ) := by
      nlinarith [Real.sq_sqrt hv, Real.sqrt_nonneg ((varianceOf l : ℚ) : ℝ),
        abs_nonneg (((lastOf l : ℚ) : ℝ) - ((avgOf l : ℚ) : ℝ)),
        sq_abs (((lastOf l : ℚ) : ℝ) - ((avgOf l : ℚ) : ℝ)),
        mul_nonneg hm (Real.sqrt_nonneg ((varianceOf l : ℚ) : ℝ))]
    exact_mod_cast h'

/-- The sum of a constant list. -/
theorem list_sum_all_eq {l : List ℚ} {c : ℚ} (h : ∀ x ∈ l, x = c) :
    l.sum = c * l.length := by
  induction l with
  | nil => simp
  | cons a t ih =>
    have ha : a = c := h a (List.mem_cons_self a t)
    have ht : ∀ x ∈ t, x = c := fun x hx => h x (List.mem_cons_of_mem a hx)
    rw [List.sum_cons, ha, ih ht, List.length_cons]
    push_cast
    ring

/-- `getLastD` of a non-empty constant list. -/
theorem getLastD_all_eq {l : List ℚ} {c : ℚ} (h : ∀ x ∈ l, x = c) (hne : l ≠ []) :
    l.getLastD 0 = c := by
  have hmem : l.getLast hne ∈ l := List.getLast_mem hne
  rw [List.getLastD_eq_getLast?, List.getLast?_eq_getLast _ hne]
  exact h _ hmem

/-- The mean of a non-empty constant window is the constant. -/
theorem avgOf_all_eq {l : List ℚ} {c : ℚ} (h : ∀ x ∈ l, x = c) (hne : l ≠ []) :
    avgOf l = c := by
  unfold avgOf
  rw [list_sum_all_eq h]
  have hlen : (l.length : ℚ) ≠ 0 := by
    have := List.length_pos.mpr hne
    exact_mod_cast this.ne'
  field_simp

/-- The variance of a non-empty constant window is zero. -/
theorem varianceOf_all_eq {l : List ℚ} {c : ℚ} (h : ∀ x ∈ l, x = c) (hne : l ≠ []) :
    varianceOf l = 0 := by
  unfold varianceOf
  have havg := avgOf_all_eq h hne
  have hz : ∀ y ∈ l.map (fun n => (n - avgOf l) ^ 2), y = 0 := by
    intro y hy
    rcases List.mem_map.mp hy with ⟨x, hx, rfl⟩
    rw [h x hx, havg]
    ring
  rw [list_sum_all_eq hz]
  simp

/-- C3: For every metric and every series of at least two samples whose
last-up-to-5 window is flat (all windowed values equal, i.e. zero variance),
`analyzeTrend` reports `isAbnormal = false`, whatever the metric's sensitivity
multiplier: the deviation of the last value from the window mean is zero and
never strictly exceeds `multiplier · stdDev = 0`. -/
theorem claim3_flat_window_not_abnormal (values : List ℚ) (metric : String)
    (h2 : 2 ≤ values.length)
    (hflat : ∀ x ∈ recentOf values, ∀ y ∈ recentOf values, x = y) :
    (analyzeTrend values metric).map TrendInsight.isAbnormal = some false := by
  have hnot : ¬values.length < 2 := by omega
  rw [analyzeTrend, if_neg hnot]
  simp only [Option.map_some']
  refine congrArg some ?_
  show isAbnormalOf (recentOf values) metric = false
  have hne : recentOf values ≠ [] := by
    have hlen : (recentOf values).length = values.length - (values.length - 5) := by
      simp [recentOf, List.length_drop]
    intro he
    rw [he] at hlen
    simp at hlen
    omega
  obtain ⟨c, hc⟩ := List.exists_mem_of_ne_nil _ hne
  have hall : ∀ x ∈ recentOf values, x = c := fun x hx => hflat x hx c hc
  have hlast : lastOf (recentOf values) = c := getLastD_all_eq hall hne
  have havg := avgOf_all_eq hall hne
  have hvar := varianceOf_all_eq hall hne
  unfold isAbnormalOf
  rw [hlast, havg, hvar]
  simp

/-- Witness for C3: the flat temperature window `[20, 20, 20, 20, 20]`. -/
theorem claim3_flat_window_not_abnormal_witness :
    (analyzeTrend [20, 20, 20, 20, 20] "temperature").map TrendInsight.isAbnormal =
      some false :=
  claim3_flat_window_not_abnormal [20, 20, 20, 20, 20] "temperature" (by decide) (by decide)

/-- C4 counterexample: on the series `[0, 5]` (first windowed value 0) the
classifier returns the rate-of-change string "Infinity%/hour" — the non-finite
value is surfaced to the user, contrary to the claim of a finite fallback. -/
theorem claim4_counterexample :
    (analyzeTrend [0, 5] "temperature").map TrendInsight.rateOfChange =
      some "Infinity%/hour" ∧
    ("Infinity" : String).data <:+: ("Infinity%/hour" : String).data := by
  exact ⟨by decide, by decide⟩

/-- C4 (amended): when the first windowed value is 0 and the last is positive,
the division in the rate of change yields JavaScript `Infinity` and the
returned percentage string is the non-finite "Infinity%/hour"; no finite
fallback is applied. -/
theorem claim4_zero_first_infinity (values : List ℚ) (metric : String)
    (h2 : 2 ≤ values.length)
    (hfirst : firstOf (recentOf values) = 0)
    (hlast : 0 < lastOf (recentOf values)) :
    (analyzeTrend values metric).map TrendInsight.rateOfChange =
      some "Infinity%/hour" := by
  have hnot : ¬values.length < 2 := by omega
  rw [analyzeTrend, if_neg hnot]
  simp only [Option.map_some']
  refine congrArg some ?_
  show jsToFixed 1 (rateOf (recentOf values)) ++ "%/hour" = "Infinity%/hour"
  have hrate : rateOf (recentOf values) = JSNum.posInf := by
    unfold rateOf
    rw [hfirst, sub_zero]
    unfold jsDivQ
    rw [if_pos rfl, if_neg hlast.ne', if_pos hlast]
    rfl
  rw [hrate]
  rfl

/-- Witness for C4 (amended) on the series `[0, 7]`. -/
theorem claim4_zero_first_infinity_witness :
    (analyzeTrend [0, 7] "humidity").map TrendInsight.rateOfChange =
      some "Infinity%/hour" :=
  claim4_zero_first_infinity [0, 7] "humidity" (by decide) (by decide) (by decide)

/-- C8 counterexample: on the window `[10, 15]` the rate-of-change label is
indeed "50.0%/hour", but the reading is *not* abnormal, the suggestion list is
the temperature "stable" catalog entry, and the predictive sentence
("... 48.0 hours.") does not appear in it — the predictive extension requires
`isAbnormal`, which a two-sample window can never satisfy. -/
theorem claim8_counterexample :
    (analyzeTrend [10, 15] "temperature").map TrendInsight.rateOfChange =
      some "50.0%/hour" ∧
    (analyzeTrend [10, 15] "temperature").map TrendInsight.isAbnormal = some false ∧
    (analyzeTrend [10, 15] "temperature").map TrendInsight.suggestion =
      some ["✅ Temperature is within safe range.",
            "1. Continue monitoring thermal trends",
            "2. Schedule preventive HVAC maintenance"] ∧
    (analyzeTrend [10, 15] "temperature").map
        (fun i => decide
          ("Temperature trends indicate potential issues in 48.0 hours." ∈ i.suggestion)) =
      some false := by
  exact ⟨by decide, by decide, by decide, by decide⟩

/-- C8 (amended): `analyzeTrend` on `[10, 15]` yields the label "50.0%/hour",
but for every metric the reading is classified as not abnormal (on a 2-sample
window `|last − mean|` equals the standard deviation and every multiplier is
at least 1), so the predictive sentence is never appended. -/
theorem claim8_amended_no_prediction (metric : String) :
    (analyzeTrend [10, 15] metric).map TrendInsight.rateOfChange = some "50.0%/hour" ∧
    (analyzeTrend [10, 15] metric).map TrendInsight.isAbnormal = some false := by
  have hnot : ¬([(10 : ℚ), 15].length < 2) := by norm_num
  constructor
  · rw [analyzeTrend, if_neg hnot]
    simp only [Option.map_some']
    refine congrArg some ?_
    show jsToFixed 1 (rateOf (recentOf [10, 15])) ++ "%/hour" = "50.0%/hour"
    decide
  · rw [analyzeTrend, if_neg hnot]
    simp only [Option.map_some']
    refine congrArg some ?_
    show isAbnormalOf (recentOf [10, 15]) metric = false
    have h1 : (lastOf (recentOf [(10 : ℚ), 15]) - avgOf (recentOf [(10 : ℚ), 15])) ^ 2 =
        25 / 4 := by decide
    have h2 : varianceOf (recentOf [(10 : ℚ), 15]) = 25 / 4 := by decide
    unfold isAbnormalOf
    rw [h1, h2, decide_eq_false_iff_not]
    intro hgt
    have ht : 1 ≤ thresholds metric := by
      unfold thresholds
      split <;> norm_num
    have ht2 : 1 ≤ thresholds metric ^ 2 := by nlinarith
    nlinarith

/-- The capitalized keys of the eight metrics are pairwise distinct. -/
theorem capitalize_inj_on_metrics :
    ∀ m₁ ∈ metricsList, ∀ m₂ ∈ metricsList, capitalize m₁ = capitalize m₂ → m₁ = m₂ := by
  decide

/-- C9: `calculateStatistics` works on the `NaN`-filtered values of each
metric; an empty series yields the empty object, a metric with no numeric
value gets no entry, and a metric with values gets an entry keyed by the
capitalized name with min, max and mean each rendered to two decimals
alongside the formatted current value. -/
theorem claim9_statistics (data : List TelemetrySample) (lv : TelemetrySample) :
    (data = [] → calculateStatistics data lv = []) ∧
    (∀ metric ∈ metricsList, data.filterMap (getField metric) = [] →
      ∀ e : StatEntry, (capitalize metric, e) ∉ calculateStatistics data lv) ∧
    (∀ metric ∈ metricsList, ∀ vals : List ℚ, data.filterMap (getField metric) = vals →
      vals ≠ [] →
      ((capitalize metric,
        { min := toFixed 2 (jsMin vals)
          max := toFixed 2 (jsMax vals)
          avg := toFixed 2 (vals.sum / vals.length)
          current := formatValue (getField metric lv) 1 }) : String × StatEntry) ∈
        calculateStatistics data lv) := by
  refine ⟨?_, ?_, ?_⟩
  · intro h
    rw [calculateStatistics, if_pos (by rw [h]; rfl)]
  · intro metric hm hempty e hmem
    rw [calculateStatistics] at hmem
    by_cases hd : data.length = 0
    · rw [if_pos hd] at hmem
      exact absurd hmem (List.not_mem_nil _)
    · rw [if_neg hd] at hmem
      rcases List.mem_filterMap.mp hmem with ⟨m', hm', hf⟩
      simp only at hf
      by_cases hv : 0 < (data.filterMap (getField m')).length
      · rw [if_pos hv, Option.some_inj] at hf
        have hkey : capitalize m' = capitalize metric := congrArg Prod.fst hf
        have hmm : m' = metric := capitalize_inj_on_metrics m' hm' metric hm hkey
        rw [hmm, hempty] at hv
        simp at hv
      · rw [if_neg hv] at hf
        exact Option.noConfusion hf
  · intro metric hm vals hvals hne
    have hd : ¬data.length = 0 := by
      intro h0
      have hdata : data = [] := List.length_eq_zero.mp h0
      rw [hdata, List.filterMap_nil] at hvals
      exact hne hvals.symm
    rw [calculateStatistics, if_neg hd]
    apply List.mem_filterMap.mpr
    refine ⟨metric, hm, ?_⟩
    simp only [hvals]
    rw [if_pos (List.length_pos.mpr hne)]

/-- Witness for C9: the empty series yields the empty object, and the
temperature series `[10, 20, 30]` yields the entry
`{min 10.00, max 30.00, avg 20.00}`. -/
theorem claim9_statistics_witness :
    calculateStatistics [] sampleBlank = [] ∧
    (("Temperature",
      { min := toFixed 2 (jsMin [10, 20, 30])
        max := toFixed 2 (jsMax [10, 20, 30])
        avg := toFixed 2 (([10, 20, 30] : List ℚ).sum / ([10, 20, 30] : List ℚ).length)
        current := formatValue (getField "temperature" (sampleTemp 30)) 1 }) :
        String × StatEntry) ∈ calculateStatistics exampleSeries (sampleTemp 30) ∧
    toFixed 2 (jsMin [10, 20, 30]) = "10.00" ∧
    toFixed 2 (jsMax [10, 20, 30]) = "30.00" ∧
    toFixed 2 (([10, 20, 30] : List ℚ).sum / ([10, 20, 30] : List ℚ).length) = "20.00" := by
  have h := claim9_statistics exampleSeries (sampleTemp 30)
  have h0 := claim9_statistics [] sampleBlank
  have hvals : exampleSeries.filterMap (getField "temperature") = [10, 20, 30] := by decide
  refine ⟨h0.1 rfl, ?_, by decide, by decide, by decide⟩
  exact h.2.2 "temperature" (by decide) [10, 20, 30] hvals (by decide)

end Dashboard

end DashboardDevelopment
